import Mathlib

/-!
# A shallow embedding of `src/runtime/dso_module.cc` (TVM runtime DSO module)

This file models the `DSOModuleNode` class: platform dynamic-library loading,
symbol resolution, the write of the module-context back-pointer, the embedded
sub-module catalog (`__tvm_dev_mblob`), and the calling-convention adapter
returned by `GetFunction`.

Modelling conventions:
* A loaded library is a finite symbol table `Library`; `dlsym` is association
  lookup (`Library.resolve`).  A `none` result models a null pointer.
  The C++ code `reinterpret_cast`s the resolved address according to the
  call-site; we model only the well-typed fragment (a symbol resolved as a
  string really is a string symbol, etc.) — anything else is undefined
  behaviour in the source and outside the embedding.
* The `dmlc::MemoryFixedSizeStream` is a forward-only cursor over bytes; we
  represent the stream state by the list of bytes still ahead of the cursor
  (each a `Nat`, meaningful below 256).  `Stream::Read` of a `uint64_t` reads
  8 native-endian (little-endian here) bytes; `Read` of a `std::string` reads
  a `uint64_t` length then that many raw bytes.
* Fatal `CHECK` failures become `Except`/`InitError` errors; per-call errors
  of the packed-function adapter carry the last-error string of the global
  error channel (`TVMGetLastError`).
* Strings travelling through the byte stream and the registry key space are
  raw byte lists, as `std::string` is a byte container.
-/

namespace DsoModule

/-! ## The forward-only byte stream (`dmlc::MemoryFixedSizeStream`) -/

/-- Stream state: the bytes still ahead of the read cursor. -/
abbrev ByteStream := List Nat

/-- `Stream::Read(ptr, k)` as used through the typed `Read` helpers: succeed
iff `k` bytes remain, consuming them.  (A partial read makes the typed
`Read` return `false`, which every call site turns into a fatal `CHECK`.) -/
def readBytes (k : Nat) (s : ByteStream) : Option (List Nat × ByteStream) :=
  if k ≤ s.length then some (s.take k, s.drop k) else none

/-- Little-endian byte-list to natural number. -/
def fromLE : List Nat → Nat
  | [] => 0
  | b :: bs => b + 256 * fromLE bs

/-- `w`-byte little-endian encoding of `n` (mod `256^w`). -/
def toLE : Nat → Nat → List Nat
  | 0, _ => []
  | w + 1, n => n % 256 :: toLE w (n / 256)

/-- `Stream::Read(&x)` for `uint64_t x`: 8 native-endian bytes. -/
def readU64 (s : ByteStream) : Option (Nat × ByteStream) :=
  match readBytes 8 s with
  | none => none
  | some (bs, s1) => some (fromLE bs, s1)

/-- `Stream::Read(&str)` for `std::string`: a `uint64_t` length followed by
that many raw bytes. -/
def readLenStr (s : ByteStream) : Option (List Nat × ByteStream) :=
  match readU64 s with
  | none => none
  | some (len, s1) => readBytes len s1

/-! ## Modules, deserializers, the process-wide registry -/

/-- An opaque `tvm::runtime::Module` reference returned by a deserializer. -/
abbrev Module := Nat

/-- A sub-module deserializer registered as `"module.loadbinary_" + tkey`:
it receives the shared stream, consumes its own payload, and returns a
module (or fails, which the source turns into a fatal error). -/
abbrev Deser := ByteStream → Option (Module × ByteStream)

/-- The process-wide registry `Registry::Get`, keyed by the raw bytes of the
key string. -/
abbrev Registry := List Nat → Option Deser

/-- Raw bytes of a (ASCII) string literal. -/
def strBytes (s : String) : List Nat := s.data.map Char.toNat

/-- The registry key base `"module.loadbinary_"` prepended to each type key. -/
def loadbinaryKey (tkey : List Nat) : List Nat :=
  strBytes "module.loadbinary_" ++ tkey

/-- The distinct fatal (`CHECK`-failure) outcomes of `DSOModuleNode::Init`. -/
inductive InitError where
  /-- `CHECK(lib_handle_ != nullptr) << "Failed to load dynamic shared library " << name` -/
  | loadFailed (path : String)
  /-- `CHECK(dev_mblob_nbytes != nullptr)` -/
  | nbytesMissing
  /-- `CHECK(stream->Read(...))` on the count or a type key -/
  | streamReadFailed
  /-- `CHECK(f != nullptr) << "Loader of " << tkey << ...` -/
  | loaderMissing (tkey : List Nat)
  /-- the invoked deserializer itself failed (threw) -/
  | deserFailed (tkey : List Nat)
  deriving DecidableEq

/-- Observable trace of the catalog loop of `Init`: which deserializers were
invoked (by type key, in order), which modules were pushed onto `imports_`
before completion or the fatal error, and the final stream state on
success. -/
structure LoadOutcome where
  invoked : List (List Nat)
  imports : List Module
  result : Except InitError ByteStream

/-- The catalog loop of `Init`: `for (i = 0; i < size; ++i) { read tkey;
look up "module.loadbinary_" + tkey; invoke it on the shared stream; push
the module }`. -/
def loadImports (reg : Registry) : Nat → ByteStream → LoadOutcome
  | 0, s => ⟨[], [], .ok s⟩
  | n + 1, s =>
    match readLenStr s with
    | none => ⟨[], [], .error .streamReadFailed⟩
    | some (tkey, s1) =>
      match reg (loadbinaryKey tkey) with
      | none => ⟨[], [], .error (.loaderMissing tkey)⟩
      | some f =>
        match f s1 with
        | none => ⟨[tkey], [], .error (.deserFailed tkey)⟩
        | some (m, s2) =>
          let rest := loadImports reg n s2
          ⟨tkey :: rest.invoked, m :: rest.imports, rest.result⟩

/-! ## The loaded library and its symbols -/

/-- A value in the uniform argument representation (opaque here). -/
abbrev TVMValue := Int

/-- `TVMArgs`: packed value array, parallel type-tag array, argument count. -/
structure TVMArgs where
  values : List TVMValue
  type_codes : List Int
  num_args : Nat

/-- `BackendPackedCFunc`: the exported native function takes the raw value
array, the raw type-tag array and the count, together with the current
content of the global last-error channel, and returns its integer status
code and the channel content after the call (native code reports failure by
setting the last error and returning non-zero). -/
abbrev BackendPackedCFunc :=
  List TVMValue → List Int → Nat → String → Int × String

/-- An address of a host module object (what `*ctx_addr = this` stores). -/
abbrev Addr := Nat

/-- The kinds of exported symbols a well-typed library can carry: a native
function, a C string (the entry-point indirection), the writable
module-context slot, the embedded-blob byte region, and an unsigned word
(the blob byte length). -/
inductive SymVal where
  | func (f : BackendPackedCFunc)
  | cstr (s : String)
  | ctxSlot (content : Option Addr)
  | blob (bytes : List Nat)
  | word (n : Nat)

/-- A loaded dynamic library: its exported symbol table. -/
structure Library where
  syms : List (String × SymVal)

/-- `dlsym` / `GetProcAddress`: resolve an exported symbol by exact name;
`none` is a null result (absence is a normal outcome). -/
def Library.resolve (lib : Library) (name : String) : Option SymVal :=
  lib.syms.lookup name

/-- `GetFuncPtr_`: the resolved address cast to `BackendPackedCFunc`.
Null (and, in the well-typed fragment, a non-function symbol) yields
`none`. -/
def Library.funcPtr (lib : Library) (name : String) : Option BackendPackedCFunc :=
  match lib.resolve name with
  | some (.func f) => some f
  | _ => none

/-- Modelled from the spec: the well-known exported symbol names declared in
`runtime::symbol` (header `meta_data.h`, not part of the given source).
Only their identities matter; the values are TVM's. -/
def tvm_module_ctx : String := "__tvm_module_ctx"

/-- Modelled from the spec: the embedded-blob pointer symbol name. -/
def tvm_dev_mblob : String := "__tvm_dev_mblob"

/-- Modelled from the spec: the embedded-blob byte-length symbol name. -/
def tvm_dev_mblob_nbytes : String := "__tvm_dev_mblob_nbytes"

/-- Modelled from the spec: the well-known module-main-entry identifier,
also the name of the entry-point-indirection string symbol. -/
def tvm_module_main : String := "__tvm_main__"

/-! ## `DSOModuleNode::Init` -/

/-- The effect of the pointer write `*ctx_addr = this` on one symbol-table
entry: only the module-context slot entry changes, receiving `self`. -/
def writeCtxEntry (self : Addr) (p : String × SymVal) : String × SymVal :=
  match p with
  | (n, .ctxSlot _) => if n = tvm_module_ctx then (n, .ctxSlot (some self)) else p
  | _ => p

/-- The pointer write `*ctx_addr = this`: store `self` into the
module-context slot of the symbol table. -/
def writeCtx (lib : Library) (self : Addr) : Library :=
  ⟨lib.syms.map (writeCtxEntry self)⟩

/-- Step 2 of `Init`: resolve the optional module-context symbol; if present
(`ctx_addr != nullptr`), write this object's own address into it; otherwise
leave the library untouched. -/
def initCtx (lib : Library) (self : Addr) : Library :=
  match lib.resolve tvm_module_ctx with
  | some (.ctxSlot _) => writeCtx lib self
  | _ => lib

/-- Steps 3–4 of `Init`: probe `__tvm_dev_mblob`; if absent (null), no
embedded sub-modules and success with no imports.  If present,
`CHECK(dev_mblob_nbytes != nullptr)`, wrap the first `nbytes` bytes of the
blob as a fixed-size stream, read the 8-byte count, and run the catalog
loop.  Returns the final `imports_` list. -/
def initBlob (reg : Registry) (lib : Library) : Except InitError (List Module) :=
  match lib.resolve tvm_dev_mblob with
  | some (.blob bytes) =>
    match lib.resolve tvm_dev_mblob_nbytes with
    | some (.word n) =>
      match readU64 (bytes.take n) with
      | none => .error .streamReadFailed
      | some (size, s1) =>
        let out := loadImports reg size s1
        match out.result with
        | .ok _ => .ok out.imports
        | .error e => .error e
    | _ => .error .nbytesMissing
  | _ => .ok []

/-- The state of a fully initialized `DSOModuleNode`: the loaded library
(with the context slot possibly written) and the `imports_` list. -/
structure DSOState where
  lib : Library
  imports : List Module

/-- `DSOModuleNode::Init(name)`: `Load(name)`, fail fatally on a null
handle, write the context slot if its symbol resolves, then load the
embedded sub-module catalog.  The platform loader (`dlopen` /
`LoadLibraryW`) is the environment parameter `loader`; `self` is the
object's own address. -/
def Init (loader : String → Option Library) (reg : Registry) (self : Addr)
    (path : String) : Except InitError DSOState :=
  match loader path with
  | none => .error (.loadFailed path)
  | some lib0 =>
    let lib := initCtx lib0 self
    match initBlob reg lib with
    | .error e => .error e
    | .ok ms => .ok ⟨lib, ms⟩

/-- The destructor body `if (lib_handle_) Unload();`: whether `Unload` is
called, as a function of the handle. -/
def destructorUnloads (handle : Option Library) : Bool :=
  handle.isSome

/-! ## `GetFunction` and the calling-convention adapter -/

/-- `DSOModuleNode::GetFuncPtr(name)`: the special case for the well-known
main-entry identifier reads the entry name string stored at that very
symbol (`CHECK`-fatal if the symbol is absent) and resolves *that* name;
any other name is resolved directly. -/
def GetFuncPtr (lib : Library) (name : String) :
    Except String (Option BackendPackedCFunc) :=
  if name = tvm_module_main then
    match lib.resolve tvm_module_main with
    | some (.cstr entry_name) => .ok (lib.funcPtr entry_name)
    | _ => .error ("Symbol " ++ tvm_module_main ++ " is not presented")
  else
    .ok (lib.funcPtr name)

/-- The outcome of invoking a packed function: success, or failure carrying
the message the adapter reports (`CHECK_EQ(ret, 0) << TVMGetLastError()`). -/
abbrev CallResult := Except String Unit

/-- A host `PackedFunc`: invoked with the uniform argument pack and the
current content of the global last-error channel. -/
abbrev PackedFunc := TVMArgs → String → CallResult

/-- The adapter lambda built by `GetFunction`: forward `args.values`,
`args.type_codes` and `args.num_args` to the native function; status `0`
means success, non-zero means failure reported with the last-error string
as left by the native side. -/
def wrapBackend (faddr : BackendPackedCFunc) : PackedFunc :=
  fun args lastError =>
    let r := faddr args.values args.type_codes args.num_args lastError
    if r.1 = 0 then .ok () else .error r.2

/-- `DSOModuleNode::GetFunction(name)`: resolve through `GetFuncPtr`; a null
function pointer yields the empty `PackedFunc()` (`none` — the normal
"no such function" outcome); otherwise the adapter closure over the
resolved native function. -/
def GetFunction (lib : Library) (name : String) :
    Except String (Option PackedFunc) :=
  match GetFuncPtr lib name with
  | .error e => .error e
  | .ok none => .ok none
  | .ok (some faddr) => .ok (some (wrapBackend faddr))

/-! ## Catalog encoders (for stating round-trip properties) -/

/-- One record of an embedded catalog as the build tooling lays it out:
its type key, its opaque payload bytes, and (for specification purposes)
the module its deserializer returns. -/
structure CatRecord where
  tkey : List Nat
  payload : List Nat
  mod : Module

/-- The length-prefixed encoding of a string, as `dmlc::Stream::Write`
produces and `readLenStr` consumes. -/
def encodeLenStr (bs : List Nat) : List Nat := toLE 8 bs.length ++ bs

/-- The byte layout of one catalog record. -/
def encodeRecord (r : CatRecord) : List Nat := encodeLenStr r.tkey ++ r.payload

/-- The byte layout of a record sequence. -/
def encodeRecords (rs : List CatRecord) : List Nat :=
  (rs.map encodeRecord).flatten

/-- The full embedded blob: the 8-byte record count followed by the
records. -/
def encodeBlob (rs : List CatRecord) : List Nat :=
  toLE 8 rs.length ++ encodeRecords rs

/-- `reg` holds, under `"module.loadbinary_" + r.tkey`, a deserializer that
consumes exactly `r`'s payload from the shared stream and returns `r.mod`
(the contract the catalog format depends on), and `r`'s key length fits the
8-byte length prefix. -/
def ExactReg (reg : Registry) (r : CatRecord) : Prop :=
  r.tkey.length < 2 ^ 64 ∧
  ∃ f, reg (loadbinaryKey r.tkey) = some f ∧
    ∀ t, f (r.payload ++ t) = some (r.mod, t)

/-! ## Concrete fixtures (libraries, registries, deserializers) -/

/-- A native function that always succeeds (status 0). -/
def fOk : BackendPackedCFunc := fun _ _ _ e => (0, e)

/-- A native function that records an error message on the global channel
and returns a non-zero status. -/
def fFail : BackendPackedCFunc := fun _ _ _ _ => (1, "device error")

/-- A library exporting only the embedded-blob pointer symbol, without the
byte-length symbol. -/
def libBlobOnly : Library := ⟨[(tvm_dev_mblob, .blob [])]⟩

/-- A library whose entry-point-indirection symbol nominates `"foo"`, which
is exported as a native function. -/
def libMainIndirect : Library :=
  ⟨[(tvm_module_main, .cstr "foo"), ("foo", .func fOk)]⟩

/-- A library whose entry-point-indirection symbol nominates `"foo"`, which
is not exported. -/
def libMainDangling : Library := ⟨[(tvm_module_main, .cstr "foo")]⟩

/-- A library exporting one ordinary native function. -/
def libOneFunc : Library := ⟨[("add", .func fFail)]⟩

/-- A library carrying only a module-context slot. -/
def libCtxOnly : Library := ⟨[(tvm_module_ctx, .ctxSlot none)]⟩

/-- A deserializer that consumes no payload bytes and returns module 7. -/
def deserX : Deser := fun s => some (7, s)

/-- A registry in which only type key `"x"` is registered. -/
def regXonly : Registry :=
  fun k => if k = loadbinaryKey (strBytes "x") then some deserX else none

/-- Catalog record with type key `"x"`, empty payload, module 7. -/
def recX : CatRecord := ⟨strBytes "x", [], 7⟩

/-- Catalog record with type key `"y"` (never registered), module 9. -/
def recY : CatRecord := ⟨strBytes "y", [], 9⟩

/-- The two-record catalog `"x"` then `"y"`. -/
def catXY : List CatRecord := [recX, recY]

/-- A library embedding the `catXY` blob. -/
def libXY : Library :=
  ⟨[(tvm_dev_mblob, .blob (encodeBlob catXY)),
    (tvm_dev_mblob_nbytes, .word (encodeBlob catXY).length)]⟩

/-- A deserializer that consumes exactly 3 payload bytes, returns module
100. -/
def deserA : Deser := fun s =>
  match readBytes 3 s with
  | none => none
  | some (_, s1) => some (100, s1)

/-- A deserializer that consumes exactly 2 payload bytes, returns module
200. -/
def deserB : Deser := fun s =>
  match readBytes 2 s with
  | none => none
  | some (_, s1) => some (200, s1)

/-- Record with key `"a"` and a 3-byte payload. -/
def recA : CatRecord := ⟨strBytes "a", [1, 2, 3], 100⟩

/-- Record with key `"b"` and a 2-byte payload (distinct length). -/
def recB : CatRecord := ⟨strBytes "b", [4, 5], 200⟩

/-- The two-record catalog `"a"` then `"b"`. -/
def catAB : List CatRecord := [recA, recB]

/-- A registry holding the exact-length deserializers for `"a"` and
`"b"`. -/
def regAB : Registry := fun k =>
  if k = loadbinaryKey (strBytes "a") then some deserA
  else if k = loadbinaryKey (strBytes "b") then some deserB
  else none

/-- A library embedding the `catAB` blob. -/
def libAB : Library :=
  ⟨[(tvm_dev_mblob, .blob (encodeBlob catAB)),
    (tvm_dev_mblob_nbytes, .word (encodeBlob catAB).length)]⟩

/-- A library embedding a blob that encodes a record count of zero. -/
def libCount0 : Library :=
  ⟨[(tvm_dev_mblob, .blob (encodeBlob [])),
    (tvm_dev_mblob_nbytes, .word (encodeBlob []).length)]⟩

/-- The empty registry. -/
def regEmpty : Registry := fun _ => none

/-! ## Round-trip lemmas for the byte stream -/

theorem toLE_length (w n : Nat) : (toLE w n).length = w := by
  induction w generalizing n with
  | zero => rfl
  | succ w ih => simp [toLE, ih]

theorem fromLE_toLE (w n : Nat) : fromLE (toLE w n) = n % 256 ^ w := by
  induction w generalizing n with
  | zero => simp [toLE, fromLE, Nat.mod_one]
  | succ w ih =>
    simp only [toLE, fromLE, ih]
    rw [pow_succ', Nat.mod_mul]

theorem readBytes_append (k : Nat) (a rest : List Nat) (h : a.length = k) :
    readBytes k (a ++ rest) = some (a, rest) := by
  subst h
  unfold readBytes
  rw [if_pos (by simp), List.take_left, List.drop_left]

theorem readU64_toLE (n : Nat) (rest : ByteStream) (h : n < 2 ^ 64) :
    readU64 (toLE 8 n ++ rest) = some (n, rest) := by
  unfold readU64
  rw [readBytes_append 8 _ _ (toLE_length 8 n)]
  show some (fromLE (toLE 8 n), rest) = some (n, rest)
  rw [fromLE_toLE, show (256 : Nat) ^ 8 = 2 ^ 64 by norm_num, Nat.mod_eq_of_lt h]

theorem readLenStr_encode (bs : List Nat) (rest : ByteStream)
    (h : bs.length < 2 ^ 64) :
    readLenStr (encodeLenStr bs ++ rest) = some (bs, rest) := by
  unfold readLenStr encodeLenStr
  rw [List.append_assoc, readU64_toLE _ _ h]
  show readBytes bs.length (bs ++ rest) = some (bs, rest)
  exact readBytes_append _ _ _ rfl

/-! ## Unfolding lemmas for the catalog loop -/

theorem loadImports_step (reg : Registry) (n : Nat) (s s1 s2 : ByteStream)
    (tkey : List Nat) (f : Deser) (m : Module)
    (h1 : readLenStr s = some (tkey, s1))
    (h2 : reg (loadbinaryKey tkey) = some f)
    (h3 : f s1 = some (m, s2)) :
    loadImports reg (n + 1) s =
      ⟨tkey :: (loadImports reg n s2).invoked,
       m :: (loadImports reg n s2).imports,
       (loadImports reg n s2).result⟩ := by
  simp only [loadImports, h1, h2, h3]

theorem loadImports_step_missing (reg : Registry) (n : Nat) (s s1 : ByteStream)
    (tkey : List Nat)
    (h1 : readLenStr s = some (tkey, s1))
    (h2 : reg (loadbinaryKey tkey) = none) :
    loadImports reg (n + 1) s = ⟨[], [], .error (.loaderMissing tkey)⟩ := by
  simp only [loadImports, h1, h2]

/-- The catalog loop on an encoded record sequence whose deserializers are
all registered and exact: every record loads, in order, and the cursor ends
exactly at `rest`. -/
theorem loadImports_encodeRecords (reg : Registry) (rs : List CatRecord)
    (rest : ByteStream) (h : ∀ r ∈ rs, ExactReg reg r) :
    loadImports reg rs.length (encodeRecords rs ++ rest) =
      ⟨rs.map (·.tkey), rs.map (·.mod), .ok rest⟩ := by
  induction rs generalizing rest with
  | nil => simp [encodeRecords, loadImports]
  | cons r rs ih =>
    obtain ⟨hk, f, hf, hcons⟩ := h r (List.mem_cons_self r rs)
    have harr : encodeRecords (r :: rs) ++ rest
        = encodeLenStr r.tkey ++ (r.payload ++ (encodeRecords rs ++ rest)) := by
      simp [encodeRecords, encodeRecord, List.append_assoc]
    rw [List.length_cons, harr,
      loadImports_step reg rs.length _ _ (encodeRecords rs ++ rest) r.tkey f r.mod
        (readLenStr_encode _ _ hk) hf (hcons _),
      ih rest (fun x hx => h x (List.mem_cons_of_mem r hx))]
    rfl

/-- The catalog loop when some record's type key has no registered loader:
the preceding records load and are appended in order, then the loop fails
fatally at that record, never invoking its deserializer or any later one. -/
theorem loadImports_encodeRecords_missing (reg : Registry)
    (good : List CatRecord) (bad : CatRecord) (more : List CatRecord)
    (rest : ByteStream)
    (hgood : ∀ r ∈ good, ExactReg reg r)
    (hk : bad.tkey.length < 2 ^ 64)
    (hbad : reg (loadbinaryKey bad.tkey) = none) :
    loadImports reg (good ++ bad :: more).length
        (encodeRecords (good ++ bad :: more) ++ rest) =
      ⟨good.map (·.tkey), good.map (·.mod), .error (.loaderMissing bad.tkey)⟩ := by
  induction good generalizing rest with
  | nil =>
    have harr : encodeRecords (bad :: more) ++ rest
        = encodeLenStr bad.tkey ++ (bad.payload ++ (encodeRecords more ++ rest)) := by
      simp [encodeRecords, encodeRecord, List.append_assoc]
    rw [List.nil_append, List.length_cons, harr,
      loadImports_step_missing reg more.length _ _ bad.tkey
        (readLenStr_encode _ _ hk) hbad]
    rfl
  | cons r good ih =>
    obtain ⟨hkr, f, hf, hcons⟩ := hgood r (List.mem_cons_self r good)
    have harr : encodeRecords (r :: (good ++ bad :: more)) ++ rest
        = encodeLenStr r.tkey ++
            (r.payload ++ (encodeRecords (good ++ bad :: more) ++ rest)) := by
      simp [encodeRecords, encodeRecord, List.append_assoc]
    rw [List.cons_append, List.length_cons, harr,
      loadImports_step reg (good ++ bad :: more).length _ _
        (encodeRecords (good ++ bad :: more) ++ rest) r.tkey f r.mod
        (readLenStr_encode _ _ hkr) hf (hcons _),
      ih rest (fun x hx => hgood x (List.mem_cons_of_mem r hx))]
    rfl

/-! ## Symbol-table lemmas for the context-slot write -/

theorem fst_writeCtxEntry (self : Addr) (p : String × SymVal) :
    (writeCtxEntry self p).1 = p.1 := by
  obtain ⟨n, v⟩ := p
  cases v with
  | ctxSlot c =>
    show (if n = tvm_module_ctx then (n, SymVal.ctxSlot (some self))
      else (n, SymVal.ctxSlot c)).1 = n
    split <;> rfl
  | func f => rfl
  | cstr s => rfl
  | blob b => rfl
  | word w => rfl

theorem writeCtxEntry_ne (self : Addr) (p : String × SymVal)
    (h : p.1 ≠ tvm_module_ctx) : writeCtxEntry self p = p := by
  obtain ⟨n, v⟩ := p
  have h' : ¬(n = tvm_module_ctx) := h
  cases v with
  | ctxSlot c =>
    show (if n = tvm_module_ctx then (n, SymVal.ctxSlot (some self))
      else (n, SymVal.ctxSlot c)) = (n, SymVal.ctxSlot c)
    rw [if_neg h']
  | func f => rfl
  | cstr s => rfl
  | blob b => rfl
  | word w => rfl

theorem writeCtxEntry_ctx (self : Addr) (c : Option Addr) :
    writeCtxEntry self (tvm_module_ctx, .ctxSlot c)
      = (tvm_module_ctx, .ctxSlot (some self)) := by
  show (if tvm_module_ctx = tvm_module_ctx
      then (tvm_module_ctx, SymVal.ctxSlot (some self))
      else (tvm_module_ctx, SymVal.ctxSlot c))
    = (tvm_module_ctx, SymVal.ctxSlot (some self))
  rw [if_pos rfl]

/-- Writing the context slot changes no symbol other than the context
symbol. -/
theorem resolve_writeCtx_ne (lib : Library) (self : Addr) (name : String)
    (h : name ≠ tvm_module_ctx) :
    (writeCtx lib self).resolve name = lib.resolve name := by
  obtain ⟨syms⟩ := lib
  induction syms with
  | nil => rfl
  | cons p t ih =>
    obtain ⟨n, v⟩ := p
    show List.lookup name (writeCtxEntry self (n, v) :: t.map (writeCtxEntry self))
        = List.lookup name ((n, v) :: t)
    by_cases hn : name = n
    · have hb : (name == n) = true := beq_iff_eq.mpr hn
      have he : writeCtxEntry self (n, v) = (n, v) :=
        writeCtxEntry_ne self (n, v) (by simpa using hn ▸ h)
      rw [he]
      simp [List.lookup, hb]
    · have hb : (name == n) = false := beq_false_of_ne hn
      rcases hq : writeCtxEntry self (n, v) with ⟨n1, v1⟩
      have hn1 : n1 = n := by
        have hfst := fst_writeCtxEntry self (n, v)
        rw [hq] at hfst
        exact hfst
      subst hn1
      simp only [List.lookup, hb]
      exact ih

/-- After the write, the context symbol holds the module's own address. -/
theorem resolve_writeCtx_ctx (lib : Library) (self : Addr) (c : Option Addr)
    (h : lib.resolve tvm_module_ctx = some (.ctxSlot c)) :
    (writeCtx lib self).resolve tvm_module_ctx = some (.ctxSlot (some self)) := by
  obtain ⟨syms⟩ := lib
  induction syms with
  | nil => simp [Library.resolve, List.lookup] at h
  | cons p t ih =>
    obtain ⟨n, v⟩ := p
    show List.lookup tvm_module_ctx
        (writeCtxEntry self (n, v) :: t.map (writeCtxEntry self))
      = some (.ctxSlot (some self))
    by_cases hn : tvm_module_ctx = n
    · subst hn
      have hb : (tvm_module_ctx == tvm_module_ctx) = true := beq_self_eq_true _
      have hv : v = .ctxSlot c := by
        simpa [Library.resolve, List.lookup, hb] using h
      subst hv
      rw [writeCtxEntry_ctx]
      simp [List.lookup, hb]
    · have hb : (tvm_module_ctx == n) = false := beq_false_of_ne hn
      have ht : Library.resolve ⟨t⟩ tvm_module_ctx = some (.ctxSlot c) := by
        simpa [Library.resolve, List.lookup, hb] using h
      rcases hq : writeCtxEntry self (n, v) with ⟨n1, v1⟩
      have hn1 : n1 = n := by
        have hfst := fst_writeCtxEntry self (n, v)
        rw [hq] at hfst
        exact hfst
      subst hn1
      simp only [List.lookup, hb]
      exact ih ht

/-- `initCtx` never disturbs the resolution of any non-context symbol. -/
theorem resolve_initCtx_ne (lib : Library) (self : Addr) (name : String)
    (h : name ≠ tvm_module_ctx) :
    (initCtx lib self).resolve name = lib.resolve name := by
  unfold initCtx
  cases hr : lib.resolve tvm_module_ctx with
  | none => rfl
  | some v =>
    cases v with
    | ctxSlot c => exact resolve_writeCtx_ne lib self name h
    | func f => rfl
    | cstr s => rfl
    | blob b => rfl
    | word w => rfl

/-- The blob step on an encoded catalog whose loaders are all registered
and exact. -/
theorem initBlob_encode (reg : Registry) (lib : Library) (rs : List CatRecord)
    (hblob : lib.resolve tvm_dev_mblob = some (.blob (encodeBlob rs)))
    (hn : lib.resolve tvm_dev_mblob_nbytes = some (.word (encodeBlob rs).length))
    (hlen : rs.length < 2 ^ 64)
    (h : ∀ r ∈ rs, ExactReg reg r) :
    initBlob reg lib = .ok (rs.map (·.mod)) := by
  have hread : readU64 ((encodeBlob rs).take (encodeBlob rs).length)
      = some (rs.length, encodeRecords rs) := by
    rw [List.take_length]
    unfold encodeBlob
    exact readU64_toLE _ _ hlen
  have hload : loadImports reg rs.length (encodeRecords rs)
      = ⟨rs.map (·.tkey), rs.map (·.mod), .ok []⟩ := by
    have := loadImports_encodeRecords reg rs [] h
    simpa using this
  simp only [initBlob, hblob, hn, hread, hload]

/-- The blob step on an encoded catalog with an unregistered type key:
fatal at that record. -/
theorem initBlob_encode_missing (reg : Registry) (lib : Library)
    (good : List CatRecord) (bad : CatRecord) (more : List CatRecord)
    (hblob : lib.resolve tvm_dev_mblob
      = some (.blob (encodeBlob (good ++ bad :: more))))
    (hn : lib.resolve tvm_dev_mblob_nbytes
      = some (.word (encodeBlob (good ++ bad :: more)).length))
    (hlen : (good ++ bad :: more).length < 2 ^ 64)
    (hgood : ∀ r ∈ good, ExactReg reg r)
    (hk : bad.tkey.length < 2 ^ 64)
    (hbad : reg (loadbinaryKey bad.tkey) = none) :
    initBlob reg lib = .error (.loaderMissing bad.tkey) := by
  have hread : readU64
      ((encodeBlob (good ++ bad :: more)).take
        (encodeBlob (good ++ bad :: more)).length)
      = some ((good ++ bad :: more).length, encodeRecords (good ++ bad :: more)) := by
    rw [List.take_length]
    unfold encodeBlob
    exact readU64_toLE _ _ hlen
  have hload : loadImports reg (good ++ bad :: more).length
      (encodeRecords (good ++ bad :: more))
      = ⟨good.map (·.tkey), good.map (·.mod),
         .error (.loaderMissing bad.tkey)⟩ := by
    have := loadImports_encodeRecords_missing reg good bad more [] hgood hk hbad
    simpa using this
  simp only [initBlob, hblob, hn, hread, hload]

/-- `Init` on a successfully loaded library carrying no embedded-blob
pointer symbol: success with empty imports. -/
theorem Init_ok_noblob (loader : String → Option Library) (reg : Registry)
    (self : Addr) (path : String) (lib : Library)
    (hload : loader path = some lib)
    (h : lib.resolve tvm_dev_mblob = none) :
    Init loader reg self path = .ok ⟨initCtx lib self, []⟩ := by
  have hres : (initCtx lib self).resolve tvm_dev_mblob = none :=
    (resolve_initCtx_ne lib self _ (by decide)).trans h
  have hblob : initBlob reg (initCtx lib self) = .ok [] := by
    unfold initBlob
    rw [hres]
  unfold Init
  rw [hload]
  show (match initBlob reg (initCtx lib self) with
    | Except.error e => Except.error e
    | Except.ok ms => Except.ok (DSOState.mk (initCtx lib self) ms)) = _
  rw [hblob]

/-- `Init` when the blob step of the loaded library resolves to an error:
that error is the outcome. -/
theorem Init_error_of_initBlob (loader : String → Option Library)
    (reg : Registry) (self : Addr) (path : String) (lib : Library)
    (e : InitError)
    (hload : loader path = some lib)
    (h : initBlob reg (initCtx lib self) = .error e) :
    Init loader reg self path = .error e := by
  unfold Init
  rw [hload]
  show (match initBlob reg (initCtx lib self) with
    | Except.error e => Except.error e
    | Except.ok ms => Except.ok (DSOState.mk (initCtx lib self) ms)) = _
  rw [h]

/-- `Init` when the blob step of the loaded library succeeds. -/
theorem Init_ok_of_initBlob (loader : String → Option Library)
    (reg : Registry) (self : Addr) (path : String) (lib : Library)
    (ms : List Module)
    (hload : loader path = some lib)
    (h : initBlob reg (initCtx lib self) = .ok ms) :
    Init loader reg self path = .ok ⟨initCtx lib self, ms⟩ := by
  unfold Init
  rw [hload]
  show (match initBlob reg (initCtx lib self) with
    | Except.error e => Except.error e
    | Except.ok ms => Except.ok (DSOState.mk (initCtx lib self) ms)) = _
  rw [h]

/-! ## The claims -/

/-- **C1 (counterexample).** The claim says that when the embedded-blob
pointer symbol is present but the length symbol is absent, `Init` still
completes successfully with no imports.  On this concrete library carrying
only the pointer symbol, `Init` instead fails fatally at
`CHECK(dev_mblob_nbytes != nullptr)`. -/
theorem claim_c1_counterexample :
    Init (fun _ => some libBlobOnly) regEmpty 0 "lib.so"
      = .error .nbytesMissing := rfl

/-- **C1 (amended).** If the embedded-blob *pointer* symbol fails to
resolve, `Init` performs no sub-module loading, leaves the imports list
empty, and completes successfully — regardless of the length symbol.  But
if the pointer symbol is present and the length symbol is absent, `Init`
fails fatally. -/
theorem claim_c1_blob_symbols (loader : String → Option Library)
    (reg : Registry) (self : Addr) (path : String) (lib : Library)
    (hload : loader path = some lib) :
    (lib.resolve tvm_dev_mblob = none →
      Init loader reg self path = .ok ⟨initCtx lib self, []⟩) ∧
    (∀ b, lib.resolve tvm_dev_mblob = some (.blob b) →
      lib.resolve tvm_dev_mblob_nbytes = none →
      Init loader reg self path = .error .nbytesMissing) := by
  constructor
  · intro h
    exact Init_ok_noblob loader reg self path lib hload h
  · intro b hb hn
    have hb' : (initCtx lib self).resolve tvm_dev_mblob = some (.blob b) :=
      (resolve_initCtx_ne lib self _ (by decide)).trans hb
    have hn' : (initCtx lib self).resolve tvm_dev_mblob_nbytes = none :=
      (resolve_initCtx_ne lib self _ (by decide)).trans hn
    have hblob : initBlob reg (initCtx lib self) = .error .nbytesMissing := by
      unfold initBlob
      rw [hb', hn']
    exact Init_error_of_initBlob loader reg self path lib _ hload hblob

/-- Witness for C1's amended theorem: both branches at concrete inputs. -/
theorem claim_c1_witness :
    Init (fun _ => some (⟨[]⟩ : Library)) regEmpty 0 "a.so"
      = .ok ⟨initCtx ⟨[]⟩ 0, []⟩ ∧
    Init (fun _ => some libBlobOnly) regEmpty 0 "a.so"
      = .error .nbytesMissing :=
  ⟨(claim_c1_blob_symbols (fun _ => some ⟨[]⟩) regEmpty 0 "a.so" ⟨[]⟩ rfl).1 rfl,
   (claim_c1_blob_symbols (fun _ => some libBlobOnly) regEmpty 0 "a.so"
      libBlobOnly rfl).2 [] rfl rfl⟩

/-- **C2.** A `GetFunction` request for the well-known module-main-entry
identifier resolves the string value stored in the entry-point-indirection
symbol — the returned callable wraps the native function exported under
*that* name, not under the literal well-known name; and if the indirection
symbol is absent, `GetFunction` fails fatally before any real symbol
lookup. -/
theorem claim_c2_main_indirection (lib : Library) :
    (∀ entry, lib.resolve tvm_module_main = some (.cstr entry) →
      GetFuncPtr lib tvm_module_main = .ok (lib.funcPtr entry) ∧
      GetFunction lib tvm_module_main
        = .ok ((lib.funcPtr entry).map wrapBackend)) ∧
    (lib.resolve tvm_module_main = none →
      GetFunction lib tvm_module_main
        = .error ("Symbol " ++ tvm_module_main ++ " is not presented")) := by
  constructor
  · intro entry h
    have h1 : GetFuncPtr lib tvm_module_main = .ok (lib.funcPtr entry) := by
      unfold GetFuncPtr
      rw [if_pos rfl, h]
    refine ⟨h1, ?_⟩
    unfold GetFunction
    rw [h1]
    cases lib.funcPtr entry <;> rfl
  · intro h
    have h1 : GetFuncPtr lib tvm_module_main
        = .error ("Symbol " ++ tvm_module_main ++ " is not presented") := by
      unfold GetFuncPtr
      rw [if_pos rfl, h]
    unfold GetFunction
    rw [h1]

/-- Witness for C2: the indirection symbol holds `"foo"`, and the resolved
callable is the one exported as `"foo"`. -/
theorem claim_c2_witness :
    GetFunction libMainIndirect tvm_module_main
      = .ok (some (wrapBackend fOk)) :=
  ((claim_c2_main_indirection libMainIndirect).1 "foo" rfl).2

/-- **C3.** When the `i`-th record's type key has no registered
deserializer, the blob step fails fatally with exactly the first `i-1`
modules loaded and appended, and the deserializer of record `i` and of
every later record is never invoked; `Init` propagates the fatal error. -/
theorem claim_c3_unregistered_key (reg : Registry) (lib : Library)
    (good : List CatRecord) (bad : CatRecord) (more : List CatRecord)
    (hblob : lib.resolve tvm_dev_mblob
      = some (.blob (encodeBlob (good ++ bad :: more))))
    (hn : lib.resolve tvm_dev_mblob_nbytes
      = some (.word (encodeBlob (good ++ bad :: more)).length))
    (hlen : (good ++ bad :: more).length < 2 ^ 64)
    (hgood : ∀ r ∈ good, ExactReg reg r)
    (hk : bad.tkey.length < 2 ^ 64)
    (hbad : reg (loadbinaryKey bad.tkey) = none) :
    initBlob reg lib = .error (.loaderMissing bad.tkey) ∧
    loadImports reg (good ++ bad :: more).length
        (encodeRecords (good ++ bad :: more))
      = ⟨good.map (·.tkey), good.map (·.mod),
         .error (.loaderMissing bad.tkey)⟩ ∧
    (∀ loader self path, loader path = some lib →
      lib.resolve tvm_module_ctx = none →
      Init loader reg self path = .error (.loaderMissing bad.tkey)) := by
  refine ⟨initBlob_encode_missing reg lib good bad more hblob hn hlen hgood hk hbad,
    ?_, ?_⟩
  · have := loadImports_encodeRecords_missing reg good bad more [] hgood hk hbad
    simpa using this
  · intro loader self path hloadp hctx
    have hid : initCtx lib self = lib := by
      unfold initCtx
      rw [hctx]
    refine Init_error_of_initBlob loader reg self path lib _ hloadp ?_
    rw [hid]
    exact initBlob_encode_missing reg lib good bad more hblob hn hlen hgood hk hbad

/-- Witness for C3: the spec's own instance — count 2, keys `"x"` then
`"y"`, only `"x"` registered: `"x"` loads (module 7 appended), then the
loop fails fatally at `"y"` without invoking any deserializer for it. -/
theorem claim_c3_witness :
    initBlob regXonly libXY = .error (.loaderMissing (strBytes "y")) ∧
    loadImports regXonly 2 (encodeRecords catXY)
      = ⟨[strBytes "x"], [7], .error (.loaderMissing (strBytes "y"))⟩ ∧
    Init (fun _ => some libXY) regXonly 0 "lib.so"
      = .error (.loaderMissing (strBytes "y")) := by
  have h := claim_c3_unregistered_key regXonly libXY [recX] recY [] rfl rfl
    (by decide)
    (by
      intro r hr
      rw [List.mem_singleton] at hr
      subst hr
      exact ⟨by decide, deserX, rfl, fun t => rfl⟩)
    (by decide) rfl
  exact ⟨h.1, h.2.1, h.2.2 _ 0 "lib.so" rfl rfl⟩

/-- **C4.** A callable returned by `GetFunction`, on invocation, forwards
the value array, type-tag array and count to the native function; a
non-zero status makes the call fail with exactly the last-error string the
native side left on the global error channel, and a zero status makes it
succeed.  (The module itself is untouched by calls: `GetFunction` keeps
returning the same callable, as the first conjunct states for any later
request.) -/
theorem claim_c4_call_error_channel (lib : Library) (name : String)
    (faddr : BackendPackedCFunc)
    (h : GetFuncPtr lib name = .ok (some faddr))
    (args : TVMArgs) (lastError : String) :
    GetFunction lib name = .ok (some (wrapBackend faddr)) ∧
    (∀ e2, faddr args.values args.type_codes args.num_args lastError = (0, e2) →
      wrapBackend faddr args lastError = .ok ()) ∧
    (∀ ret e2,
      faddr args.values args.type_codes args.num_args lastError = (ret, e2) →
      ret ≠ 0 → wrapBackend faddr args lastError = .error e2) := by
  refine ⟨?_, ?_, ?_⟩
  · unfold GetFunction
    rw [h]
  · intro e2 hc
    simp [wrapBackend, hc]
  · intro ret e2 hc hne
    simp [wrapBackend, hc, hne]

/-- Witness for C4: a native function that sets `"device error"` and
returns 1 makes the adapted call fail with exactly that string. -/
theorem claim_c4_witness :
    GetFunction libOneFunc "add" = .ok (some (wrapBackend fFail)) ∧
    wrapBackend fFail ⟨[], [], 0⟩ "" = .error "device error" := by
  have h := claim_c4_call_error_channel libOneFunc "add" fFail rfl ⟨[], [], 0⟩ ""
  exact ⟨h.1, h.2.2 1 "device error" rfl (by decide)⟩

/-- **C5.** For any requested name other than the module-main-entry
identifier, a null symbol resolution makes `GetFunction` return the normal
empty-callable outcome, never a fatal error. -/
theorem claim_c5_not_found_non_fatal (lib : Library) (name : String)
    (hname : name ≠ tvm_module_main) (hres : lib.resolve name = none) :
    GetFunction lib name = .ok none := by
  have h1 : GetFuncPtr lib name = .ok none := by
    unfold GetFuncPtr
    rw [if_neg hname]
    show Except.ok (lib.funcPtr name) = Except.ok none
    unfold Library.funcPtr
    rw [hres]
  unfold GetFunction
  rw [h1]

/-- Witness for C5: `GetFunction("nonexistent_symbol")` on an empty
library. -/
theorem claim_c5_witness :
    GetFunction ⟨[]⟩ "nonexistent_symbol" = .ok none :=
  claim_c5_not_found_non_fatal ⟨[]⟩ "nonexistent_symbol" (by decide) rfl

/-- **C6.** A null handle from the platform loader makes `Init` fail
fatally, and the destructor then performs no `Unload` (the handle is
null); `Init` can only succeed when the loader returned a non-null handle;
and for a valid library (here: one with no embedded blob, so the remaining
steps cannot fail) a non-null handle makes `Init` succeed. -/
theorem claim_c6_init_iff_handle (loader : String → Option Library)
    (reg : Registry) (self : Addr) (path : String) :
    (loader path = none →
      Init loader reg self path = .error (.loadFailed path) ∧
      destructorUnloads (loader path) = false) ∧
    (∀ st, Init loader reg self path = .ok st → (loader path).isSome = true) ∧
    (∀ lib, loader path = some lib → lib.resolve tvm_dev_mblob = none →
      Init loader reg self path = .ok ⟨initCtx lib self, []⟩) := by
  refine ⟨?_, ?_, ?_⟩
  · intro h
    constructor
    · unfold Init
      rw [h]
    · rw [h]
      rfl
  · intro st h
    cases heq : loader path with
    | none =>
      unfold Init at h
      rw [heq] at h
      exact absurd h (by simp)
    | some lib => rfl
  · intro lib hload h
    exact Init_ok_noblob loader reg self path lib hload h

/-- Witness for C6: a loader that fails, and one that succeeds on a plain
library. -/
theorem claim_c6_witness :
    (Init (fun _ => none) regEmpty 0 "bad.so" = .error (.loadFailed "bad.so") ∧
      destructorUnloads ((fun (_ : String) => (none : Option Library)) "bad.so")
        = false) ∧
    Init (fun _ => some libOneFunc) regEmpty 0 "ok.so"
      = .ok ⟨initCtx libOneFunc 0, []⟩ :=
  ⟨(claim_c6_init_iff_handle (fun _ => none) regEmpty 0 "bad.so").1 rfl,
   (claim_c6_init_iff_handle (fun _ => some libOneFunc) regEmpty 0 "ok.so").2.2
      libOneFunc rfl rfl⟩

/-- **C7.** On an embedded catalog of `N` records whose deserializers are
registered and consume exactly their own payloads, the blob step succeeds
with `imports` exactly the modules returned, in catalog order; the loop
trace shows the deserializers invoked strictly in record order on the
single shared cursor, which ends exactly at the end of the blob. -/
theorem claim_c7_order_and_cursor (reg : Registry) (lib : Library)
    (rs : List CatRecord)
    (hblob : lib.resolve tvm_dev_mblob = some (.blob (encodeBlob rs)))
    (hn : lib.resolve tvm_dev_mblob_nbytes
      = some (.word (encodeBlob rs).length))
    (hlen : rs.length < 2 ^ 64)
    (h : ∀ r ∈ rs, ExactReg reg r) :
    initBlob reg lib = .ok (rs.map (·.mod)) ∧
    loadImports reg rs.length (encodeRecords rs)
      = ⟨rs.map (·.tkey), rs.map (·.mod), .ok []⟩ := by
  refine ⟨initBlob_encode reg lib rs hblob hn hlen h, ?_⟩
  have := loadImports_encodeRecords reg rs [] h
  simpa using this

/-- Witness for C7: two records of distinct payload lengths (3 then 2
bytes) chained on the shared cursor both deserialize, in order. -/
theorem claim_c7_witness :
    initBlob regAB libAB = .ok [100, 200] ∧
    loadImports regAB 2 (encodeRecords catAB)
      = ⟨[strBytes "a", strBytes "b"], [100, 200], .ok []⟩ := by
  have h := claim_c7_order_and_cursor regAB libAB catAB rfl rfl (by decide)
    (by
      intro r hr
      simp only [catAB, List.mem_cons, List.not_mem_nil, or_false] at hr
      rcases hr with hr | hr <;> subst hr
      · refine ⟨by decide, deserA, rfl, fun t => ?_⟩
        show deserA ([1, 2, 3] ++ t) = some (100, t)
        unfold deserA
        rw [readBytes_append 3 [1, 2, 3] t rfl]
      · refine ⟨by decide, deserB, rfl, fun t => ?_⟩
        show deserB ([4, 5] ++ t) = some (200, t)
        unfold deserB
        rw [readBytes_append 2 [4, 5] t rfl])
  exact h

/-- **C8.** A library whose embedded blob encodes a record count of zero:
`Init` completes successfully and the imports list is empty. -/
theorem claim_c8_count_zero (loader : String → Option Library)
    (reg : Registry) (self : Addr) (path : String) (lib : Library)
    (b : List Nat) (n : Nat) (s1 : ByteStream)
    (hload : loader path = some lib)
    (hblob : lib.resolve tvm_dev_mblob = some (.blob b))
    (hn : lib.resolve tvm_dev_mblob_nbytes = some (.word n))
    (hread : readU64 (b.take n) = some (0, s1)) :
    Init loader reg self path = .ok ⟨initCtx lib self, []⟩ := by
  have hb' : (initCtx lib self).resolve tvm_dev_mblob = some (.blob b) :=
    (resolve_initCtx_ne lib self _ (by decide)).trans hblob
  have hn' : (initCtx lib self).resolve tvm_dev_mblob_nbytes = some (.word n) :=
    (resolve_initCtx_ne lib self _ (by decide)).trans hn
  have hbl : initBlob reg (initCtx lib self) = .ok [] := by
    simp [initBlob, hb', hn', hread, loadImports]
  exact Init_ok_of_initBlob loader reg self path lib [] hload hbl

/-- Witness for C8: the encoded count-0 blob. -/
theorem claim_c8_witness :
    Init (fun _ => some libCount0) regEmpty 0 "z.so"
      = .ok ⟨initCtx libCount0 0, []⟩ :=
  claim_c8_count_zero (fun _ => some libCount0) regEmpty 0 "z.so" libCount0
    (encodeBlob []) (encodeBlob []).length [] rfl rfl rfl rfl

/-- **C9.** After a successful load, if the module-context symbol resolves,
the object's own address is written into that slot; if the symbol is
absent, nothing is written (the library is unchanged) and initialization
continues without error into the blob step. -/
theorem claim_c9_ctx_write (lib : Library) (self : Addr) :
    (∀ c, lib.resolve tvm_module_ctx = some (.ctxSlot c) →
      (initCtx lib self).resolve tvm_module_ctx
        = some (.ctxSlot (some self))) ∧
    (lib.resolve tvm_module_ctx = none →
      initCtx lib self = lib ∧
      ∀ loader reg path, loader path = some lib →
        Init loader reg self path
          = Except.map (fun ms => DSOState.mk lib ms) (initBlob reg lib)) := by
  constructor
  · intro c h
    have hid : initCtx lib self = writeCtx lib self := by
      unfold initCtx
      rw [h]
    rw [hid]
    exact resolve_writeCtx_ctx lib self c h
  · intro h
    have hid : initCtx lib self = lib := by
      unfold initCtx
      rw [h]
    refine ⟨hid, ?_⟩
    intro loader reg path hload
    cases hb : initBlob reg lib with
    | ok ms =>
      have hb2 : initBlob reg (initCtx lib self) = Except.ok ms := by
        rw [hid]
        exact hb
      have h3 := Init_ok_of_initBlob loader reg self path lib ms hload hb2
      rw [h3, hid]
      rfl
    | error e =>
      have hb2 : initBlob reg (initCtx lib self) = Except.error e := by
        rw [hid]
        exact hb
      have h3 := Init_error_of_initBlob loader reg self path lib e hload hb2
      rw [h3]
      rfl

/-- Witness for C9: a library with a context slot receives the address 42;
one without the symbol is left unchanged. -/
theorem claim_c9_witness :
    (initCtx libCtxOnly 42).resolve tvm_module_ctx
      = some (.ctxSlot (some 42)) ∧
    initCtx ⟨[]⟩ 42 = ⟨[]⟩ :=
  ⟨(claim_c9_ctx_write libCtxOnly 42).1 none rfl,
   ((claim_c9_ctx_write ⟨[]⟩ 42).2 rfl).1⟩

/-- **C10.** If the indirection symbol is present with value `s` but `s`
itself does not resolve, `GetFunction` on the main-entry name returns the
normal not-found outcome (empty callable), not a fatal error. -/
theorem claim_c10_dangling_entry (lib : Library) (entry : String)
    (hmain : lib.resolve tvm_module_main = some (.cstr entry))
    (hentry : lib.resolve entry = none) :
    GetFunction lib tvm_module_main = .ok none := by
  have h1 : GetFuncPtr lib tvm_module_main = .ok none := by
    unfold GetFuncPtr
    rw [if_pos rfl, hmain]
    show Except.ok (lib.funcPtr entry) = Except.ok none
    unfold Library.funcPtr
    rw [hentry]
  unfold GetFunction
  rw [h1]

/-- Witness for C10: the indirection symbol nominates `"foo"`, which is not
exported. -/
theorem claim_c10_witness :
    GetFunction libMainDangling tvm_module_main = .ok none :=
  claim_c10_dangling_entry libMainDangling "foo" rfl rfl

end DsoModule
